import Mathlib

/-!
Verification of the sync engine of `michkot/xbrowsersync-app`
(`src/modules/shared/sync/sync-engine/sync-engine.service.ts`).

The TypeScript service is embedded shallowly: the engine's mutable fields
(`currentSync`, `syncQueue`, the persisted store keys) become an explicit
`EngineState`; the asynchronous promise chains, which the service runs under
single-threaded cooperative scheduling, become sequential state-passing
functions; calls to the external collaborators (platform, api client,
providers, the `$q` deferreds of each request) are recorded as `Event`s in a
chronological trace held in the state.  Each request's single-settlement
completion handle (`deferred`) is modelled by a first-write-wins association
list from the request's `uniqueId` to its `Settlement`.
-/

namespace SyncEngine

/-- Modelled from the spec: the request type enumeration (`SyncType` from
`../sync.enum`, which is not under `src/`).  Spec section 3 gives
`type ∈ { Local, Remote, Cancel, ... }`; `Upgrade` stands for the remaining
variants, which the engine treats like `Remote` (only `Local` and `Cancel`
are ever distinguished in the source). -/
inductive SyncType where
  | Local
  | Remote
  | Cancel
  | Upgrade
  deriving DecidableEq, Repr

/-- Modelled from the spec: message commands (`MessageCommand` from
`../../global-shared.enum`, not under `src/`); the engine only distinguishes
`RestoreBookmarks` (sync-engine.service.ts line 310). -/
inductive MessageCommand where
  | RestoreBookmarks
  | OtherCommand
  deriving DecidableEq, Repr

/-- Modelled from the spec: the error kinds of spec section 7, named after the
exception classes of `../../exception/exception` (not under `src/`) that the
source tests with `instanceof`.  The wrapper kinds keep their inner error
(the `exception(message, inner)` constructor pattern).  `jsError` stands for a
raised value that is not an `Exceptions.Exception` (e.g. a TypeError). -/
inductive Err where
  | networkOffline
  | noDataFound
  | tooManyRequests
  | missingClientData
  | syncRemoved (inner : Err)
  | syncUncommitted (inner : Err)
  | syncFailed (inner : Err)
  | bookmarkMappingNotFound
  | containerChanged
  | dataOutOfSync
  | failedCreateNativeBookmarks
  | failedGetNativeBookmarks
  | failedRemoveNativeBookmarks
  | nativeBookmarkNotFound
  | bookmarkNotFound
  | syncDisabled
  | jsError
  deriving DecidableEq, Repr

/-- `err instanceof Exceptions.Exception`: every modelled kind except a raw
JavaScript error is one of the engine's own exception classes. -/
def isException : Err → Bool
  | .jsError => false
  | _ => true

/-- `checkIfDisableSyncOnError` (sync-engine.service.ts lines 68-76). -/
def checkIfDisableSyncOnError : Err → Bool
  | .syncRemoved _ => true
  | .missingClientData => true
  | .noDataFound => true
  | .tooManyRequests => true
  | _ => false

/-- `checkIfRefreshSyncedDataOnError` (sync-engine.service.ts lines 78-90). -/
def checkIfRefreshSyncedDataOnError : Err → Bool
  | .bookmarkMappingNotFound => true
  | .containerChanged => true
  | .dataOutOfSync => true
  | .failedCreateNativeBookmarks => true
  | .failedGetNativeBookmarks => true
  | .failedRemoveNativeBookmarks => true
  | .nativeBookmarkNotFound => true
  | .bookmarkNotFound => true
  | _ => false

/-- `err instanceof Exceptions.SyncUncommittedException`. -/
def isUncommittedErr : Err → Bool
  | .syncUncommitted _ => true
  | _ => false

/-- A provider's `processSync` result (`ProviderResult` of the spec's data
model): an opaque data payload plus an optional `updateRemote` verdict
(`angular.isUndefined(current.updateRemote)` distinguishes the absent case,
sync-engine.service.ts line 299). -/
structure ProviderResult where
  data : Nat
  updateRemote : Option Bool
  deriving DecidableEq, Repr

/-- A queued `Sync` request (fields of `Sync` from `../sync.interface` used by
the engine: `uniqueId`, `type`, `command`; the `deferred` completion handle is
modelled separately in `EngineState.settlements`, keyed by `uniqueId`). -/
structure Sync where
  uniqueId : Nat
  type : SyncType
  command : Option MessageCommand
  deriving DecidableEq, Repr

/-- The final state of a request's single-settlement completion handle
(`$q.defer()`), which resolves or rejects exactly once. -/
inductive Settlement where
  | resolved
  | rejected (e : Err)
  deriving DecidableEq, Repr

/-- One observable call to an external collaborator, recorded chronologically:
platform calls (`automaticUpdates_Start`, `automaticUpdates_Stop`,
`interface_Refresh`, `refreshLocalSyncData`), provider calls (`enable`,
`disable`, `processSync`, `handleUpdateRemoteFailed`), the api commit
(`updateBookmarks`), and the settlement attempts on a request's deferred. -/
inductive Event where
  | autoUpdatesStart
  | autoUpdatesStop
  | interfaceRefresh
  | interfaceRefreshWithType (t : SyncType)
  | interfaceRefreshWithEnabled (enabled : Bool)
  | providerEnable (i : Nat)
  | providerDisable (i : Nat)
  | providerProcessSync (i : Nat) (id : Nat)
  | providerHandleUpdateRemoteFailed (i : Nat)
  | apiUpdateBookmarks
  | refreshLocalSyncData
  | resolveSignal (id : Nat)
  | rejectSignal (id : Nat) (e : Err)
  deriving DecidableEq, Repr

/-- The persisted key-value store keys the engine uses (spec section 6):
`SyncEnabled`, `LastUpdated`, `Password`, `SyncVersion`. -/
structure Store where
  syncEnabled : Bool
  lastUpdated : Option String
  password : Option String
  syncVersion : Option String
  deriving DecidableEq, Repr

/-- The engine's mutable state: the `currentSync` in-flight sentinel, the
`syncQueue`, the persisted store, the settlements of the requests' completion
handles (first write wins), and the chronological trace of collaborator
calls. -/
structure EngineState where
  currentSync : Option Sync
  syncQueue : List Sync
  store : Store
  settlements : List (Nat × Settlement)
  events : List Event
  deriving DecidableEq, Repr

/-- Append one collaborator call to the trace. -/
def emit (st : EngineState) (e : Event) : EngineState :=
  { st with events := st.events ++ [e] }

/-- Append several collaborator calls to the trace. -/
def emitAll (st : EngineState) (es : List Event) : EngineState :=
  { st with events := st.events ++ es }

/-- Look a request's settlement up by its `uniqueId`. -/
def findSettlement : List (Nat × Settlement) → Nat → Option Settlement
  | [], _ => none
  | (k, v) :: rest, id => if k = id then some v else findSettlement rest id

/-- `deferred.resolve()`: the call is always made (and recorded), but a
deferred settles at most once, so it only takes effect when the request is
still pending. -/
def settleResolve (st : EngineState) (id : Nat) : EngineState :=
  let st := emit st (Event.resolveSignal id)
  if (findSettlement st.settlements id).isSome then st
  else { st with settlements := (id, Settlement.resolved) :: st.settlements }

/-- `deferred.reject(e)`: the call is always made (and recorded), but a
deferred settles at most once, so it only takes effect when the request is
still pending. -/
def settleReject (st : EngineState) (id : Nat) (e : Err) : EngineState :=
  let st := emit st (Event.rejectSignal id e)
  if (findSettlement st.settlements id).isSome then st
  else { st with settlements := (id, Settlement.rejected e) :: st.settlements }

/-- A registered sync provider: whether it is the `BookmarkSyncProviderService`
(the `switch (provider.constructor)` dispatch at lines 288 and 365), and the
behaviour of its `processSync` callback, which either returns a result or
raises an error. -/
structure Provider where
  isBookmark : Bool
  behavior : Sync → Except Err ProviderResult

/-- The external collaborators of one run: the registered providers (the
source constructor registers exactly `[BookmarkSyncProviderSvc]`, line 65),
the outcome of `apiSvc.updateBookmarks`, the outcome of
`platformSvc.refreshLocalSyncData`, and the `new Date().toISOString()` value
used by `handleFailedSync`. -/
structure Env where
  providers : List Provider
  updateBookmarksResult : Except Err String
  refreshLocalSyncDataResult : Except Err Unit
  nowIso : String

/-- `setIsSyncing` (sync-engine.service.ts lines 441-449): with a sync type,
refresh the interface with that type; without one, read the cached
`SyncEnabled` value and refresh the interface with it. -/
def setIsSyncing (st : EngineState) (t : Option SyncType) : EngineState :=
  match t with
  | some ty => emit st (Event.interfaceRefreshWithType ty)
  | none => emit st (Event.interfaceRefreshWithEnabled st.store.syncEnabled)

/-- `disableSync` (sync-engine.service.ts lines 117-147): a no-op when
`SyncEnabled` is already false; otherwise stop automatic updates, remove the
`Password` and `SyncVersion` keys, persist `SyncEnabled := false`, call
`disable()` on every registered provider, clear the sync queue, refresh the
syncing flag, and refresh the interface. -/
def disableSync (env : Env) (st : EngineState) : EngineState :=
  if !st.store.syncEnabled then st
  else
    let st := emit st Event.autoUpdatesStop
    let st := { st with store :=
      { st.store with password := none, syncVersion := none, syncEnabled := false } }
    let st := emitAll st ((List.range env.providers.length).map Event.providerDisable)
    let st := { st with syncQueue := [] }
    let st := setIsSyncing st none
    emit st Event.interfaceRefresh

/-- `enableSync` (sync-engine.service.ts lines 149-157): persist
`SyncEnabled := true`, start automatic updates, call `enable()` on every
registered provider.  The source has no already-enabled guard. -/
def enableSync (env : Env) (st : EngineState) : EngineState :=
  let st := { st with store := { st.store with syncEnabled := true } }
  let st := emit st Event.autoUpdatesStart
  emitAll st ((List.range env.providers.length).map Event.providerEnable)

/-- `sync_handleCancel` (sync-engine.service.ts lines 451-453). -/
def sync_handleCancel (env : Env) (st : EngineState) : EngineState :=
  disableSync env st

/-- `$q.all` over the providers' `processSync` promises: fail fast with the
first rejection in registration order, otherwise collect all results. -/
def collectResults : List (Except Err ProviderResult) → Except Err (List ProviderResult)
  | [] => .ok []
  | .error e :: _ => .error e
  | .ok r :: rest =>
    match collectResults rest with
    | .error e => .error e
    | .ok rs => .ok (r :: rs)

/-- The aggregate outcome of fanning one request out to every provider. -/
def providerOutcomes (env : Env) (s : Sync) : Except Err (List ProviderResult) :=
  collectResults (env.providers.map (fun p => p.behavior s))

/-- The provider fan-out of `action` (sync-engine.service.ts lines 283-284):
every registered provider's `processSync` is invoked (and recorded), and the
joint result is the `$q.all` outcome. -/
def runProviders (env : Env) (st : EngineState) (cs : Sync) :
    EngineState × Except Err (List ProviderResult) :=
  let st := emitAll st
    ((List.range env.providers.length).map (fun i => Event.providerProcessSync i cs.uniqueId))
  (st, providerOutcomes env cs)

/-- The `forEach` extraction of `processedBookmarksData` (sync-engine.service.ts
lines 286-295): the bookmark provider's result data overwrites the captured
payload; other providers only log a warning. -/
def extractBookmarksData (providers : List Provider) (results : List ProviderResult)
    (pd : Option Nat) : Option Nat :=
  (providers.zip results).foldl
    (fun acc pr => if pr.1.isBookmark then some pr.2.data else acc) pd

/-- `combineUpdateRemote` is the `reduce` of sync-engine.service.ts lines
297-300: fold the providers' results left-to-right with identity `true`,
ignoring results whose `updateRemote` is undefined and conjoining the rest. -/
def combineUpdateRemote (results : List ProviderResult) : Bool :=
  results.foldl
    (fun prev current =>
      match current.updateRemote with
      | none => prev
      | some v => prev && v)
    true

/-- The per-request update of the drain's `updateRemote` flag
(sync-engine.service.ts lines 321-326): a false verdict clears the flag, a
true verdict on a non-Local request sets it, and a true verdict on a Local
request leaves it unchanged. -/
def updateRemoteStep (flag : Bool) (ty : SyncType) (verdict : Bool) : Bool :=
  if !verdict then false
  else if ty ≠ SyncType.Local then true
  else flag

/-- The tail of `action` (sync-engine.service.ts lines 303-330): read
`SyncEnabled`; if it is false and the request is neither a `RestoreBookmarks`
command nor a Cancel, run `enableSync`; then resolve the request's deferred,
update the `updateRemote` flag from the aggregated verdict `syncChange`, and
reset the syncing flag. -/
def actionFinish (env : Env) (st : EngineState) (cs : Sync) (syncChange : Bool)
    (updateRemote : Bool) : EngineState × Bool :=
  let syncEnabled := st.store.syncEnabled
  let st :=
    if !syncEnabled ∧ cs.command ≠ some MessageCommand.RestoreBookmarks
        ∧ cs.type ≠ SyncType.Cancel
    then enableSync env st else st
  let st := settleResolve st cs.uniqueId
  let updateRemote := updateRemoteStep updateRemote cs.type syncChange
  (setIsSyncing st none, updateRemote)

/-- One iteration of the drain loop, the `action` closure of
`processSyncQueue` (sync-engine.service.ts lines 265-332): shift the head of
the queue into `currentSync`, publish its type; a Cancel request runs
`sync_handleCancel` and contributes a false verdict; any other request is
fanned out to the providers, whose first rejection aborts the step, and whose
results feed `processedBookmarksData` and the aggregated verdict. -/
def actionStep (env : Env) (st : EngineState) (updateRemote : Bool) (pd : Option Nat) :
    EngineState × Bool × Option Nat × Option Err :=
  match st.syncQueue with
  | [] => (st, updateRemote, pd, none)
  | cs :: rest =>
    let st := { st with currentSync := some cs, syncQueue := rest }
    let st := setIsSyncing st (some cs.type)
    if cs.type = SyncType.Cancel then
      let st := sync_handleCancel env st
      match actionFinish env st cs false updateRemote with
      | (st, ur) => (st, ur, pd, none)
    else
      match runProviders env st cs with
      | (st, .error e) => (st, updateRemote, pd, some e)
      | (st, .ok results) =>
        let pd := extractBookmarksData env.providers results pd
        let syncChange := combineUpdateRemote results
        match actionFinish env st cs syncChange updateRemote with
        | (st, ur) => (st, ur, pd, none)

/-- Modelled from the spec: `utilitySvc.promiseWhile(syncQueue, doActionUntil,
action)` (the utility module is not under `src/`); spec section 4.1 step 2
describes it as `While the queue is non-empty: dequeue the head ...`, and a
rejection of `action` rejects the whole loop.  The fuel argument only bounds
the recursion; every step removes at least the dequeued head, so a fuel equal
to the queue length drains the queue completely. -/
def drainLoop (env : Env) : Nat → EngineState → Bool → Option Nat →
    EngineState × Bool × Option Nat × Option Err
  | 0, st, updateRemote, pd => (st, updateRemote, pd, none)
  | fuel + 1, st, updateRemote, pd =>
    if st.syncQueue = [] then (st, updateRemote, pd, none)
    else
      match actionStep env st updateRemote pd with
      | (st1, ur1, pd1, some e) => (st1, ur1, pd1, some e)
      | (st1, ur1, pd1, none) => drainLoop env fuel st1 ur1 pd1

/-- `handleFailedSync` (sync-engine.service.ts lines 190-250): refresh the
interface; a `NetworkOffline` error on a non-Local request immediately
resolves with a `SyncUncommitted` wrapper, while the `finally` clause rejects
the request's deferred with the unchanged `err` variable, i.e. the raw
transport error.  Otherwise wrap a non-Exception error as `SyncFailed`,
reset the syncing flag, and, when sync is enabled: reclassify `NoDataFound`
as `SyncRemoved`, or, for a non-Local request, clear the queue, persist a new
`LastUpdated` and possibly refresh the local sync data (a refresh failure
overriding the error); then run `disableSync` when the final error is
disable-worthy; finally resolve with the final error and reject the deferred
with it. -/
def handleFailedSync (env : Env) (st : EngineState) (failedSync : Sync) (err : Err) :
    EngineState × Err :=
  let st := emit st Event.interfaceRefresh
  if err = Err.networkOffline ∧ failedSync.type ≠ SyncType.Local then
    (settleReject st failedSync.uniqueId err, Err.syncUncommitted err)
  else
    let err := if isException err then err else Err.syncFailed err
    let syncEnabled := st.store.syncEnabled
    let st := setIsSyncing st none
    let stErr :=
      if !syncEnabled then (st, err)
      else if err = Err.noDataFound then (st, Err.syncRemoved err)
      else if failedSync.type ≠ SyncType.Local then
        let st := { st with syncQueue := [] }
        let st := { st with store := { st.store with lastUpdated := some env.nowIso } }
        if checkIfRefreshSyncedDataOnError err then
          let st := { st with currentSync := none }
          let st := emit st Event.refreshLocalSyncData
          match env.refreshLocalSyncDataResult with
          | .ok _ => (st, err)
          | .error refreshErr => (st, refreshErr)
        else (st, err)
      else (st, err)
    match stErr with
    | (st, err) =>
      let st := if checkIfDisableSyncOnError err then disableSync env st else st
      (settleReject st failedSync.uniqueId err, err)

/-- The remote-commit block of `processSyncQueue` (sync-engine.service.ts
lines 346-378): when the `updateRemote` flag is unset do nothing; otherwise
push `processedBookmarksData.encryptedBookmarks` through
`apiSvc.updateBookmarks` (reading the property of an unset payload raises a
raw JavaScript error) and persist the returned `lastUpdated`; on a commit
failure notify every provider via `handleUpdateRemoteFailed` and rethrow the
failure. -/
def commitStage (env : Env) (st : EngineState) (updateRemote : Bool) (pd : Option Nat) :
    EngineState × Option Err :=
  if updateRemote then
    match pd with
    | none => (st, some Err.jsError)
    | some _ =>
      let st := emit st Event.apiUpdateBookmarks
      match env.updateBookmarksResult with
      | .ok lu => ({ st with store := { st.store with lastUpdated := some lu } }, none)
      | .error e =>
        (emitAll st
          ((List.range env.providers.length).map Event.providerHandleUpdateRemoteFailed),
          some e)
  else (st, none)

/-- The `catch` block of `processSyncQueue` (sync-engine.service.ts lines
379-383): a failure anywhere in the drain is routed through
`handleFailedSync` with the `currentSync` at failure time, and the error
`handleFailedSync` resolves with is rethrown. -/
def catchStage (env : Env) (st : EngineState) (res : Option Err) :
    EngineState × Option Err :=
  match res with
  | none => (st, none)
  | some e =>
    match st.currentSync with
    | some cs =>
      match handleFailedSync env st cs e with
      | (st4, e2) => (st4, some e2)
    | none => (st, some e)

/-- The `finally` block of `processSyncQueue` (sync-engine.service.ts lines
384-394): clear `currentSync`, then restart automatic updates when sync is
still enabled. -/
def finallyStage (env : Env) (st : EngineState) (res : Option Err) :
    EngineState × Option Err :=
  let st := { st with currentSync := none }
  let st := if st.store.syncEnabled then emit st Event.autoUpdatesStart else st
  (st, res)

/-- `processSyncQueue` (sync-engine.service.ts lines 252-395): a no-op when a
sync is in flight or the queue is empty; otherwise stop automatic updates
while processing (when sync is enabled), run the drain loop, run the
remote-commit block on its outcome, route any failure through the `catch`
block, and always run the `finally` block. -/
def processSyncQueue (env : Env) (st : EngineState) : EngineState × Option Err :=
  if st.currentSync.isSome ∨ st.syncQueue = [] then (st, none)
  else
    let st1 := if st.store.syncEnabled then emit st Event.autoUpdatesStop else st
    match drainLoop env st1.syncQueue.length st1 false none with
    | (st2, updateRemote, pd, loopErr) =>
      match (match loopErr with
             | some e => (st2, some e)
             | none => commitStage env st2 updateRemote pd) with
      | (st3, res) =>
        match catchStage env st3 res with
        | (st5, res2) => finallyStage env st5 res2

/-- The enqueue part of `queueSync` (sync-engine.service.ts lines 397-420):
when sync is disabled, clear the queue; when the new request is a Cancel,
clear the queue; create the request's deferred, assign a unique id when none
is given, and push the request. -/
def queueSyncEnqueue (st : EngineState) (ty : SyncType) (cmd : Option MessageCommand)
    (givenId : Option Nat) (freshId : Nat) : EngineState × Sync :=
  let st := if !st.store.syncEnabled then { st with syncQueue := [] } else st
  let st := if ty = SyncType.Cancel then { st with syncQueue := [] } else st
  let s : Sync := { uniqueId := givenId.getD freshId, type := ty, command := cmd }
  ({ st with syncQueue := st.syncQueue ++ [s] }, s)

/-- `queueSync` (sync-engine.service.ts lines 397-439): enqueue the request
and, when `runSync` is set, run a full drain (`processSyncQueue`, scheduled
through `$timeout`, which under cooperative scheduling runs after the enqueue
completes). -/
def queueSync (env : Env) (st : EngineState) (ty : SyncType) (cmd : Option MessageCommand)
    (givenId : Option Nat) (freshId : Nat) (runSync : Bool) : EngineState × Option Err :=
  match queueSyncEnqueue st ty cmd givenId freshId with
  | (st1, _) => if runSync then processSyncQueue env st1 else (st1, none)

/-- The aggregated verdict a drain computes for one request: the
`combineUpdateRemote` fold over the fan-out results (false is a dummy for the
fan-out failing, in which case the drain never reaches the flag update). -/
def drainVerdict (env : Env) (s : Sync) : Bool :=
  match providerOutcomes env s with
  | .ok rs => combineUpdateRemote rs
  | .error _ => false

/-- The commit decision a failure-free, Cancel-free drain reaches: the fold of
the per-request flag update over the queue, starting from `false`. -/
def commitFold (env : Env) (q : List Sync) : Bool :=
  q.foldl (fun f s => updateRemoteStep f s.type (drainVerdict env s)) false

/-- The number of remote commits (`apiSvc.updateBookmarks` calls) recorded in
a trace. -/
def apiCommitCount : List Event → Nat
  | [] => 0
  | e :: rest => apiCommitCount rest + (if e = Event.apiUpdateBookmarks then 1 else 0)

/-- A concrete bookmark provider succeeding with verdict `updateRemote = true`
on every request. -/
def exProviderTrue : Provider := ⟨true, fun _ => Except.ok ⟨7, some true⟩⟩

/-- Concrete collaborators whose remote commit succeeds. -/
def exEnv : Env := ⟨[exProviderTrue], Except.ok "lu1", Except.ok (), "now1"⟩

/-- Concrete collaborators whose remote commit fails with a raw JavaScript
error. -/
def exEnvBadApi : Env := ⟨[exProviderTrue], Except.error Err.jsError, Except.ok (), "now1"⟩

/-- A concrete idle engine state: sync enabled, no sync in flight, empty trace,
all requests pending, and the given queue. -/
def exState (q : List Sync) : EngineState := ⟨none, q, ⟨true, none, none, none⟩, [], []⟩

/-- A concrete idle engine state with sync disabled. -/
def exStateDisabled (q : List Sync) : EngineState := ⟨none, q, ⟨false, none, none, none⟩, [], []⟩

/-! ## Basic state lemmas -/

@[simp] theorem emit_currentSync (st : EngineState) (e : Event) :
    (emit st e).currentSync = st.currentSync := rfl

@[simp] theorem emit_syncQueue (st : EngineState) (e : Event) :
    (emit st e).syncQueue = st.syncQueue := rfl

@[simp] theorem emit_store (st : EngineState) (e : Event) :
    (emit st e).store = st.store := rfl

@[simp] theorem emit_settlements (st : EngineState) (e : Event) :
    (emit st e).settlements = st.settlements := rfl

@[simp] theorem emit_events (st : EngineState) (e : Event) :
    (emit st e).events = st.events ++ [e] := rfl

@[simp] theorem emitAll_currentSync (st : EngineState) (es : List Event) :
    (emitAll st es).currentSync = st.currentSync := rfl

@[simp] theorem emitAll_syncQueue (st : EngineState) (es : List Event) :
    (emitAll st es).syncQueue = st.syncQueue := rfl

@[simp] theorem emitAll_store (st : EngineState) (es : List Event) :
    (emitAll st es).store = st.store := rfl

@[simp] theorem emitAll_settlements (st : EngineState) (es : List Event) :
    (emitAll st es).settlements = st.settlements := rfl

@[simp] theorem emitAll_events (st : EngineState) (es : List Event) :
    (emitAll st es).events = st.events ++ es := rfl

theorem range_one_eq : List.range 1 = [0] := rfl

theorem disableSync_store_syncEnabled (env : Env) (st : EngineState) :
    (disableSync env st).store.syncEnabled = false := by
  unfold disableSync
  cases h : st.store.syncEnabled <;> simp [h, setIsSyncing]

theorem disableSync_of_disabled (env : Env) (st : EngineState)
    (h : st.store.syncEnabled = false) : disableSync env st = st := by
  unfold disableSync
  simp [h]

theorem disableSync_settlements (env : Env) (st : EngineState) :
    (disableSync env st).settlements = st.settlements := by
  unfold disableSync
  cases h : st.store.syncEnabled <;> simp [h, setIsSyncing]

theorem finallyStage_currentSync (env : Env) (st : EngineState) (res : Option Err) :
    (finallyStage env st res).1.currentSync = none := by
  simp only [finallyStage]
  split <;> rfl

@[simp] theorem setIsSyncing_currentSync (st : EngineState) (t : Option SyncType) :
    (setIsSyncing st t).currentSync = st.currentSync := by
  cases t <;> rfl

@[simp] theorem setIsSyncing_syncQueue (st : EngineState) (t : Option SyncType) :
    (setIsSyncing st t).syncQueue = st.syncQueue := by
  cases t <;> rfl

@[simp] theorem setIsSyncing_store (st : EngineState) (t : Option SyncType) :
    (setIsSyncing st t).store = st.store := by
  cases t <;> rfl

@[simp] theorem setIsSyncing_settlements (st : EngineState) (t : Option SyncType) :
    (setIsSyncing st t).settlements = st.settlements := by
  cases t <;> rfl

theorem apiCommitCount_append (l₁ l₂ : List Event) :
    apiCommitCount (l₁ ++ l₂) = apiCommitCount l₁ + apiCommitCount l₂ := by
  induction l₁ with
  | nil => simp [apiCommitCount]
  | cons e l ih => simp [apiCommitCount, ih]; omega

theorem findSettlement_settleReject_pending (st : EngineState) (id : Nat) (e : Err)
    (h : findSettlement st.settlements id = none) :
    findSettlement (settleReject st id e).settlements id
      = some (Settlement.rejected e) := by
  simp [settleReject, h, findSettlement]

theorem findSettlement_settleReject_settled (st : EngineState) (id : Nat) (e : Err)
    (x : Settlement) (h : findSettlement st.settlements id = some x) :
    findSettlement (settleReject st id e).settlements id = some x := by
  simp [settleReject, h]

/-- The facts one successful non-Cancel drain step establishes: no error, the
head is consumed, the `updateRemote` flag moves by `updateRemoteStep` with the
request's aggregated verdict, `processedBookmarksData` is overwritten when the
registered provider is the bookmark provider, and no remote commit is
recorded. -/
theorem actionStep_ok_facts (env : Env) (p : Provider) (st : EngineState) (s : Sync)
    (rest : List Sync) (r : ProviderResult) (ur : Bool) (pd : Option Nat)
    (hp : env.providers = [p]) (hq : st.syncQueue = s :: rest)
    (hnc : s.type ≠ SyncType.Cancel) (hr : p.behavior s = Except.ok r) :
    (actionStep env st ur pd).2.2.2 = none
    ∧ (actionStep env st ur pd).1.syncQueue = rest
    ∧ (actionStep env st ur pd).2.1 = updateRemoteStep ur s.type (drainVerdict env s)
    ∧ (actionStep env st ur pd).2.2.1 = (if p.isBookmark then some r.data else pd)
    ∧ apiCommitCount (actionStep env st ur pd).1.events = apiCommitCount st.events := by
  have hv : drainVerdict env s = combineUpdateRemote [r] := by
    simp [drainVerdict, providerOutcomes, hp, hr, collectResults]
  refine ⟨?_, ?_, ?_, ?_, ?_⟩ <;>
    simp [actionStep, hq, hnc, runProviders, providerOutcomes, hp, hr, collectResults,
      actionFinish, extractBookmarksData, settleResolve, setIsSyncing, enableSync,
      hv, range_one_eq, apiCommitCount_append, apiCommitCount] <;>
    split <;>
    simp [apiCommitCount_append, apiCommitCount] <;>
    split <;>
    simp [apiCommitCount_append, apiCommitCount]

/-- A Cancel-free drain over requests on which the registered provider
succeeds never fails, empties the queue, moves the `updateRemote` flag by the
`updateRemoteStep` fold, keeps a bookmark payload once one exists, and issues
no remote commit of its own. -/
theorem drainLoop_noCancel_ok (env : Env) (p : Provider) (hp : env.providers = [p]) :
    ∀ (q : List Sync) (st : EngineState) (ur : Bool) (pd : Option Nat),
      st.syncQueue = q →
      (∀ s ∈ q, s.type ≠ SyncType.Cancel) →
      (∀ s ∈ q, ∃ r, p.behavior s = Except.ok r) →
      (drainLoop env q.length st ur pd).1.syncQueue = []
      ∧ (drainLoop env q.length st ur pd).2.2.2 = none
      ∧ (drainLoop env q.length st ur pd).2.1
          = q.foldl (fun f s => updateRemoteStep f s.type (drainVerdict env s)) ur
      ∧ ((p.isBookmark = true ∧ (q ≠ [] ∨ pd.isSome = true)) →
          (drainLoop env q.length st ur pd).2.2.1.isSome = true)
      ∧ apiCommitCount (drainLoop env q.length st ur pd).1.events
          = apiCommitCount st.events := by
  intro q
  induction q with
  | nil =>
    intro st ur pd hq _ _
    simp [drainLoop, hq]
  | cons s q ih =>
    intro st ur pd hq hnc hok
    obtain ⟨r, hr⟩ := hok s (by simp)
    obtain ⟨h1, h2, h3, h4, h5⟩ :=
      actionStep_ok_facts env p st s q r ur pd hp hq (hnc s (by simp)) hr
    rcases hstep : actionStep env st ur pd with ⟨st1, ur1, pd1, e1⟩
    rw [hstep] at h1 h2 h3 h4 h5
    dsimp only at h1 h2 h3 h4 h5
    subst h1
    have hne : ¬(st.syncQueue = []) := by rw [hq]; simp
    simp only [List.length_cons, drainLoop]
    rw [if_neg hne, hstep]
    dsimp only
    obtain ⟨i1, i2, i3, i4, i5⟩ :=
      ih st1 ur1 pd1 h2 (fun x hx => hnc x (List.mem_cons_of_mem _ hx))
        (fun x hx => hok x (List.mem_cons_of_mem _ hx))
    refine ⟨i1, i2, ?_, ?_, ?_⟩
    · rw [i3, h3, List.foldl_cons]
    · rintro ⟨hb, _⟩
      apply i4
      refine ⟨hb, Or.inr ?_⟩
      rw [h4, if_pos hb]
      rfl
    · rw [i5, h5]

/-! ## Claim C8 -/

/-- **C8**: `disableSync` is idempotent: it is a no-op when the persisted
`SyncEnabled` flag is already false, so calling it twice in a row produces
exactly the same end state — store contents, queue, in-flight sentinel,
settlements and recorded provider-disable side effects — as calling it
once. -/
theorem disableSync_idempotent (env : Env) (st : EngineState) :
    disableSync env (disableSync env st) = disableSync env st :=
  disableSync_of_disabled env _ (disableSync_store_syncEnabled env st)

/-! ## Claim C4 -/

theorem combineUpdateRemote_foldl (b : Bool) (l : List ProviderResult) :
    List.foldl
        (fun prev current =>
          match current.updateRemote with
          | none => prev
          | some v => prev && v) b l
      = (b && (l.filterMap ProviderResult.updateRemote).all id) := by
  induction l generalizing b with
  | nil => simp
  | cons x xs ih =>
    cases hx : x.updateRemote with
    | none => simp [List.foldl_cons, hx, ih]
    | some v => simp [List.foldl_cons, hx, ih, Bool.and_assoc]

/-- **C4**: the aggregated provider verdict (`combineUpdateRemote`, the
`reduce` of sync-engine.service.ts lines 297-300) equals the logical AND of
the `updateRemote` values of exactly those providers that supplied a defined
value; providers supplying no value are ignored, and when no provider
supplies a value the aggregate is `true` (the `all` of an empty list). -/
theorem combineUpdateRemote_eq_all (results : List ProviderResult) :
    combineUpdateRemote results
      = (results.filterMap ProviderResult.updateRemote).all id := by
  simpa [combineUpdateRemote] using combineUpdateRemote_foldl true results

/-! ## Claim C9 -/

/-- **C9 counterexample**: the claim states that a second `enableSync` call
while `SyncEnabled` is already true causes no duplicate enable side effect on
any registered provider.  On the code it is false: `enableSync` has no
already-enabled guard, so the second call invokes `enable()` on the
registered provider again — two recorded `providerEnable 0` calls instead of
one. -/
theorem enableSync_second_call_duplicates :
    (enableSync exEnv (enableSync exEnv (exState []))).events.count
        (Event.providerEnable 0) = 2
    ∧ (enableSync exEnv (exState [])).events.count (Event.providerEnable 0) = 1
    ∧ (enableSync exEnv (exState [])).store.syncEnabled = true := by decide

/-- **C9 amended**: `enableSync` is unguarded: a second call while the
persisted `SyncEnabled` flag is true repeats `automaticUpdates_Start` and the
`enable()` call on the registered provider (leaving the flag true); the
engine avoids duplicates only because its sole internal call site
(`processSyncQueue`) guards the call with an `!syncEnabled` check, and any
further dedup is the platform's or the providers' concern. -/
theorem enableSync_repeats_side_effects (env : Env) (p : Provider) (st : EngineState)
    (hp : env.providers = [p]) (hen : st.store.syncEnabled = true) :
    (enableSync env (enableSync env st)).events
        = st.events ++ [Event.autoUpdatesStart, Event.providerEnable 0]
            ++ [Event.autoUpdatesStart, Event.providerEnable 0]
    ∧ (enableSync env (enableSync env st)).store.syncEnabled = true := by
  refine ⟨?_, rfl⟩
  simp [enableSync, hp, range_one_eq]

/-- Witness for the amended C9 theorem at a concrete enabled state. -/
theorem enableSync_repeats_side_effects_witness :
    (enableSync exEnv (enableSync exEnv (exState []))).events
        = (exState []).events ++ [Event.autoUpdatesStart, Event.providerEnable 0]
            ++ [Event.autoUpdatesStart, Event.providerEnable 0]
    ∧ (enableSync exEnv (enableSync exEnv (exState []))).store.syncEnabled = true :=
  enableSync_repeats_side_effects exEnv exProviderTrue (exState []) rfl rfl

/-! ## Claim C2 -/

/-- **C2 counterexample**: the claim states that a `NetworkOffline` failure of
a non-Local request settles the caller's completion signal with an
Uncommitted error rather than the raw transport error.  On the code it is
false: the offline branch of `handleFailedSync` resolves the handler's own
promise with the `SyncUncommitted` wrapper but never reassigns the `err`
variable, so the `finally` clause rejects the request's deferred with the raw
`NetworkOffline` error, which is not an Uncommitted error. -/
theorem handleFailedSync_offline_rejects_raw :
    findSettlement (handleFailedSync exEnv (exState [])
        ⟨5, SyncType.Remote, none⟩ Err.networkOffline).1.settlements 5
      = some (Settlement.rejected Err.networkOffline)
    ∧ isUncommittedErr Err.networkOffline = false := by decide

/-- **C2 amended**: for every failed sync whose error is `NetworkOffline` and
whose request type is not Local, `handleFailedSync` resolves its own result —
the error the drain propagates to its caller — with the `SyncUncommitted`
wrapper, but settles the request's completion signal with the raw transport
error; the sync queue and the whole persisted store (in particular the
`SyncEnabled` flag) are left unchanged. -/
theorem handleFailedSync_offline_amended (env : Env) (st : EngineState) (s : Sync)
    (hty : s.type ≠ SyncType.Local)
    (hpend : findSettlement st.settlements s.uniqueId = none) :
    (handleFailedSync env st s Err.networkOffline).2
        = Err.syncUncommitted Err.networkOffline
    ∧ (handleFailedSync env st s Err.networkOffline).1.syncQueue = st.syncQueue
    ∧ (handleFailedSync env st s Err.networkOffline).1.store = st.store
    ∧ findSettlement (handleFailedSync env st s Err.networkOffline).1.settlements
        s.uniqueId = some (Settlement.rejected Err.networkOffline) := by
  unfold handleFailedSync
  simp [hty, settleReject, hpend, findSettlement]

/-- Witness for the amended C2 theorem: a concrete Remote-type request failing
with `NetworkOffline` while sync is enabled. -/
theorem handleFailedSync_offline_amended_witness :
    (handleFailedSync exEnv (exState [⟨9, SyncType.Local, none⟩])
        ⟨5, SyncType.Remote, none⟩ Err.networkOffline).2
        = Err.syncUncommitted Err.networkOffline
    ∧ (handleFailedSync exEnv (exState [⟨9, SyncType.Local, none⟩])
        ⟨5, SyncType.Remote, none⟩ Err.networkOffline).1.syncQueue
        = (exState [⟨9, SyncType.Local, none⟩]).syncQueue
    ∧ (handleFailedSync exEnv (exState [⟨9, SyncType.Local, none⟩])
        ⟨5, SyncType.Remote, none⟩ Err.networkOffline).1.store
        = (exState [⟨9, SyncType.Local, none⟩]).store
    ∧ findSettlement (handleFailedSync exEnv (exState [⟨9, SyncType.Local, none⟩])
        ⟨5, SyncType.Remote, none⟩ Err.networkOffline).1.settlements 5
        = some (Settlement.rejected Err.networkOffline) :=
  handleFailedSync_offline_amended exEnv (exState [⟨9, SyncType.Local, none⟩])
    ⟨5, SyncType.Remote, none⟩ (by decide) (by decide)

/-! ## Claim C7 -/

/-- **C7**: a `NoDataFound` failure of a non-Local request while sync is
enabled is reclassified as `SyncRemoved`: `handleFailedSync` resolves with
the `SyncRemoved` wrapper, invokes the disable path (the persisted
`SyncEnabled` flag ends false and the registered provider's `disable()` is
called), and the request's completion signal receives the `SyncRemoved`
error rather than the raw `NoDataFound` error. -/
theorem handleFailedSync_noDataFound_removes (env : Env) (p : Provider)
    (st : EngineState) (s : Sync)
    (hp : env.providers = [p])
    (hen : st.store.syncEnabled = true)
    (hty : s.type ≠ SyncType.Local)
    (hpend : findSettlement st.settlements s.uniqueId = none)
    (hev : st.events = []) :
    (handleFailedSync env st s Err.noDataFound).2 = Err.syncRemoved Err.noDataFound
    ∧ (handleFailedSync env st s Err.noDataFound).1.store.syncEnabled = false
    ∧ findSettlement (handleFailedSync env st s Err.noDataFound).1.settlements
        s.uniqueId = some (Settlement.rejected (Err.syncRemoved Err.noDataFound))
    ∧ Event.providerDisable 0 ∈ (handleFailedSync env st s Err.noDataFound).1.events := by
  unfold handleFailedSync
  simp [hp, hen, settleReject, hpend, findSettlement, isException, checkIfDisableSyncOnError,
    setIsSyncing, disableSync, hev]

/-- Witness for the C7 theorem at a concrete Remote-type request. -/
theorem handleFailedSync_noDataFound_removes_witness :
    (handleFailedSync exEnv (exState []) ⟨5, SyncType.Remote, none⟩ Err.noDataFound).2
        = Err.syncRemoved Err.noDataFound
    ∧ (handleFailedSync exEnv (exState []) ⟨5, SyncType.Remote, none⟩
        Err.noDataFound).1.store.syncEnabled = false
    ∧ findSettlement (handleFailedSync exEnv (exState [])
        ⟨5, SyncType.Remote, none⟩ Err.noDataFound).1.settlements 5
        = some (Settlement.rejected (Err.syncRemoved Err.noDataFound))
    ∧ Event.providerDisable 0 ∈ (handleFailedSync exEnv (exState [])
        ⟨5, SyncType.Remote, none⟩ Err.noDataFound).1.events :=
  handleFailedSync_noDataFound_removes exEnv exProviderTrue (exState [])
    ⟨5, SyncType.Remote, none⟩ rfl rfl (by decide) (by decide) rfl

/-! ## Claim C5 -/

/-- **C5**: the at-most-one-in-flight invariant, as the spec grounds it under
cooperative scheduling: every invocation of the drain is a no-op — state and
outcome untouched — when a sync is already in flight or the queue is empty
(the sentinel guard of sync-engine.service.ts lines 256-259); and whenever a
drain actually runs (no sync was in flight), the `finally` clause leaves the
in-flight sentinel cleared, for any environment and any queue contents. -/
theorem processSyncQueue_single_inflight (env : Env) (st : EngineState) :
    (st.currentSync.isSome ∨ st.syncQueue = [] → processSyncQueue env st = (st, none))
    ∧ (st.currentSync = none → (processSyncQueue env st).1.currentSync = none) := by
  constructor
  · intro h
    unfold processSyncQueue
    simp [h]
  · intro h
    unfold processSyncQueue
    by_cases hg : st.currentSync.isSome ∨ st.syncQueue = []
    · rw [if_pos hg]
      exact h
    · rw [if_neg hg]
      repeat' split
      all_goals apply finallyStage_currentSync

/-- Witness for the C5 theorem: a concrete in-flight state is left untouched,
and a concrete actual drain ends with the sentinel cleared. -/
theorem processSyncQueue_single_inflight_witness :
    processSyncQueue exEnv
        ⟨some ⟨1, SyncType.Remote, none⟩, [⟨2, SyncType.Local, none⟩],
          ⟨true, none, none, none⟩, [], []⟩
      = (⟨some ⟨1, SyncType.Remote, none⟩, [⟨2, SyncType.Local, none⟩],
          ⟨true, none, none, none⟩, [], []⟩, none)
    ∧ (processSyncQueue exEnv (exState [⟨1, SyncType.Remote, none⟩])).1.currentSync
        = none :=
  ⟨(processSyncQueue_single_inflight exEnv
      ⟨some ⟨1, SyncType.Remote, none⟩, [⟨2, SyncType.Local, none⟩],
        ⟨true, none, none, none⟩, [], []⟩).1 (Or.inl (by decide)),
   (processSyncQueue_single_inflight exEnv (exState [⟨1, SyncType.Remote, none⟩])).2 rfl⟩

/-! ## Claim C6 -/

/-- **C6**: for every prior queue contents, enqueuing a Cancel request clears
the queue before insertion (the queue right after the enqueue holds exactly
the Cancel request), and draining it invokes the disable path and stops with
the queue left empty: after the drain the queue is empty, the persisted
`SyncEnabled` flag is false, and the registered provider's `disable()` was
called. -/
theorem queueSync_cancel_clears_and_disables (env : Env) (p : Provider)
    (st : EngineState) (cmd : Option MessageCommand) (givenId : Option Nat)
    (freshId : Nat)
    (hp : env.providers = [p])
    (hcur : st.currentSync = none)
    (hen : st.store.syncEnabled = true)
    (hev : st.events = [])
    (hset : st.settlements = []) :
    (queueSyncEnqueue st SyncType.Cancel cmd givenId freshId).1.syncQueue
        = [⟨givenId.getD freshId, SyncType.Cancel, cmd⟩]
    ∧ (queueSync env st SyncType.Cancel cmd givenId freshId true).1.syncQueue = []
    ∧ (queueSync env st SyncType.Cancel cmd givenId freshId true).1.store.syncEnabled
        = false
    ∧ Event.providerDisable 0
        ∈ (queueSync env st SyncType.Cancel cmd givenId freshId true).1.events := by
  refine ⟨?_, ?_, ?_, ?_⟩ <;>
    simp [queueSync, queueSyncEnqueue, processSyncQueue, hp, hcur, hen, hev, hset,
      drainLoop, actionStep, actionFinish, sync_handleCancel, disableSync, setIsSyncing,
      settleResolve, findSettlement, updateRemoteStep, range_one_eq,
      commitStage, catchStage, finallyStage]

/-- Witness for the C6 theorem: a Cancel enqueued behind a concrete two-element
queue. -/
theorem queueSync_cancel_clears_and_disables_witness :
    (queueSyncEnqueue (exState [⟨1, SyncType.Remote, none⟩, ⟨2, SyncType.Local, none⟩])
        SyncType.Cancel none none 99).1.syncQueue
        = [⟨(none : Option Nat).getD 99, SyncType.Cancel, none⟩]
    ∧ (queueSync exEnv (exState [⟨1, SyncType.Remote, none⟩, ⟨2, SyncType.Local, none⟩])
        SyncType.Cancel none none 99 true).1.syncQueue = []
    ∧ (queueSync exEnv (exState [⟨1, SyncType.Remote, none⟩, ⟨2, SyncType.Local, none⟩])
        SyncType.Cancel none none 99 true).1.store.syncEnabled = false
    ∧ Event.providerDisable 0
        ∈ (queueSync exEnv (exState [⟨1, SyncType.Remote, none⟩, ⟨2, SyncType.Local, none⟩])
            SyncType.Cancel none none 99 true).1.events :=
  queueSync_cancel_clears_and_disables exEnv exProviderTrue
    (exState [⟨1, SyncType.Remote, none⟩, ⟨2, SyncType.Local, none⟩])
    none none 99 rfl rfl rfl rfl rfl

/-! ## Claim C10 -/

/-- **C10**: when a drained request is not a Cancel and not a
`RestoreBookmarks` command, and the persisted `SyncEnabled` flag is false
after the provider processes it successfully, the drain step itself enables
sync — the flag ends true and the step's trace shows `automaticUpdates_Start`
and the registered provider's `enable()` happening before the request's
completion signal is resolved — and the completion signal ends resolved. -/
theorem actionStep_enables_before_resolve (env : Env) (p : Provider)
    (st : EngineState) (cs : Sync) (rest : List Sync) (r : ProviderResult)
    (ur : Bool) (pd : Option Nat)
    (hp : env.providers = [p])
    (hq : st.syncQueue = cs :: rest)
    (hdis : st.store.syncEnabled = false)
    (hty : cs.type ≠ SyncType.Cancel)
    (hcmd : cs.command ≠ some MessageCommand.RestoreBookmarks)
    (hb : p.behavior cs = Except.ok r)
    (hpend : findSettlement st.settlements cs.uniqueId = none)
    (hev : st.events = []) :
    (actionStep env st ur pd).1.store.syncEnabled = true
    ∧ (actionStep env st ur pd).2.2.2 = none
    ∧ findSettlement (actionStep env st ur pd).1.settlements cs.uniqueId
        = some Settlement.resolved
    ∧ (actionStep env st ur pd).1.events
        = [Event.interfaceRefreshWithType cs.type,
           Event.providerProcessSync 0 cs.uniqueId,
           Event.autoUpdatesStart, Event.providerEnable 0,
           Event.resolveSignal cs.uniqueId,
           Event.interfaceRefreshWithEnabled true] := by
  refine ⟨?_, ?_, ?_, ?_⟩ <;>
    simp [actionStep, runProviders, providerOutcomes, collectResults, extractBookmarksData,
      combineUpdateRemote, actionFinish, enableSync, settleResolve, setIsSyncing,
      findSettlement, hp, hq, hdis, hty, hcmd, hb, hpend, hev, range_one_eq]

/-- Witness for the C10 theorem: a concrete Remote request drained while sync
is disabled. -/
theorem actionStep_enables_before_resolve_witness :
    (actionStep exEnv (exStateDisabled [⟨5, SyncType.Remote, none⟩]) false none).1.store.syncEnabled
        = true
    ∧ (actionStep exEnv (exStateDisabled [⟨5, SyncType.Remote, none⟩]) false none).2.2.2 = none
    ∧ findSettlement (actionStep exEnv (exStateDisabled [⟨5, SyncType.Remote, none⟩])
        false none).1.settlements 5 = some Settlement.resolved
    ∧ (actionStep exEnv (exStateDisabled [⟨5, SyncType.Remote, none⟩]) false none).1.events
        = [Event.interfaceRefreshWithType SyncType.Remote,
           Event.providerProcessSync 0 5,
           Event.autoUpdatesStart, Event.providerEnable 0,
           Event.resolveSignal 5,
           Event.interfaceRefreshWithEnabled true] :=
  actionStep_enables_before_resolve exEnv exProviderTrue
    (exStateDisabled [⟨5, SyncType.Remote, none⟩]) ⟨5, SyncType.Remote, none⟩ [] ⟨7, some true⟩
    false none rfl rfl rfl (by decide) (by decide) rfl rfl rfl

/-! ## Claim C1 -/

/-- **C1 counterexample**: the claim states that for a queue whose last
processed request is Local with verdict true, after an earlier non-Local
request with verdict true, no commit occurs.  On the code it is false: the
flag update of sync-engine.service.ts lines 321-326 leaves `updateRemote`
unchanged for a Local request with a true verdict, so the flag set by the
earlier Remote request survives and the drain of
`[Remote (verdict true), Local (verdict true)]` issues exactly one remote
commit, without any failure. -/
theorem processSyncQueue_commit_after_trailing_local :
    apiCommitCount (processSyncQueue exEnv
        (exState [⟨1, SyncType.Remote, none⟩, ⟨2, SyncType.Local, none⟩])).1.events = 1
    ∧ (processSyncQueue exEnv
        (exState [⟨1, SyncType.Remote, none⟩, ⟨2, SyncType.Local, none⟩])).2 = none := by
  decide

/-- **C1 amended**: for every drain over a Cancel-free queue on which the
registered bookmark provider succeeds and the remote commit (when attempted)
succeeds, a remote commit is issued — exactly once — if and only if folding
the per-request flag update (`updateRemoteStep`: a false verdict clears the
flag, a true verdict on a non-Local request sets it, and a true verdict on a
Local request leaves it unchanged) over the processed requests, starting from
false, yields true.  In particular a trailing Local request with a true
verdict preserves, rather than cancels, a commit decided by an earlier
non-Local request. -/
theorem processSyncQueue_commit_iff_fold (env : Env) (p : Provider)
    (st : EngineState) (q : List Sync)
    (hp : env.providers = [p]) (hb : p.isBookmark = true)
    (hcur : st.currentSync = none) (hq : st.syncQueue = q) (hne : q ≠ [])
    (hnc : ∀ s ∈ q, s.type ≠ SyncType.Cancel)
    (hok : ∀ s ∈ q, ∃ r, p.behavior s = Except.ok r)
    (hapi : ∃ lu, env.updateBookmarksResult = Except.ok lu) :
    (processSyncQueue env st).2 = none
    ∧ apiCommitCount (processSyncQueue env st).1.events
        = apiCommitCount st.events + (if commitFold env q then 1 else 0) := by
  obtain ⟨lu, hlu⟩ := hapi
  unfold processSyncQueue
  have hg : ¬(st.currentSync.isSome = true ∨ st.syncQueue = []) := by
    simp [hcur, hq, hne]
  rw [if_neg hg]
  dsimp only
  set st1 := if st.store.syncEnabled = true then emit st Event.autoUpdatesStop else st
    with hst1
  have hq1 : st1.syncQueue = q := by rw [hst1]; split <;> simp [hq]
  have hev1 : apiCommitCount st1.events = apiCommitCount st.events := by
    rw [hst1]; split <;> simp [apiCommitCount_append, apiCommitCount]
  rw [hq1]
  obtain ⟨l1, l2, l3, l4, l5⟩ := drainLoop_noCancel_ok env p hp q st1 false none hq1 hnc hok
  rcases hdl : drainLoop env q.length st1 false none with ⟨st2, ur, pd, le⟩
  rw [hdl] at l1 l2 l3 l4 l5
  dsimp only at l1 l2 l3 l4 l5
  subst l2
  have hur : ur = commitFold env q := l3
  obtain ⟨d, hd⟩ : ∃ d, pd = some d := by
    have := l4 ⟨hb, Or.inl hne⟩
    cases pd with
    | none => simp at this
    | some d => exact ⟨d, rfl⟩
  subst hd
  dsimp only
  cases hcf : commitFold env q with
  | true =>
    rw [hur, hcf]
    simp [commitStage, hlu, catchStage, finallyStage, apiCommitCount_append,
      apiCommitCount, l5, hev1]
    split <;> simp [apiCommitCount_append, apiCommitCount, l5, hev1]
  | false =>
    rw [hur, hcf]
    simp [commitStage, catchStage, finallyStage, apiCommitCount_append,
      apiCommitCount, l5, hev1]
    split <;> simp [apiCommitCount_append, apiCommitCount, l5, hev1]

/-- Witness for the amended C1 theorem at the queue
`[Remote (verdict true), Local (verdict true)]`, whose fold is true, so the
commit occurs exactly once. -/
theorem processSyncQueue_commit_iff_fold_witness :
    (processSyncQueue exEnv
        (exState [⟨1, SyncType.Remote, none⟩, ⟨2, SyncType.Local, none⟩])).2 = none
    ∧ apiCommitCount (processSyncQueue exEnv
        (exState [⟨1, SyncType.Remote, none⟩, ⟨2, SyncType.Local, none⟩])).1.events
        = apiCommitCount
            (exState [⟨1, SyncType.Remote, none⟩, ⟨2, SyncType.Local, none⟩]).events
          + (if commitFold exEnv [⟨1, SyncType.Remote, none⟩, ⟨2, SyncType.Local, none⟩]
             then 1 else 0) :=
  processSyncQueue_commit_iff_fold exEnv exProviderTrue
    (exState [⟨1, SyncType.Remote, none⟩, ⟨2, SyncType.Local, none⟩])
    [⟨1, SyncType.Remote, none⟩, ⟨2, SyncType.Local, none⟩]
    rfl rfl rfl rfl (by decide) (by decide)
    (fun _ _ => ⟨⟨7, some true⟩, rfl⟩) ⟨"lu1", rfl⟩

/-! ## Claim C3 -/

/-- **C3 counterexample**: the claim states that a request failing anywhere in
the drain loop — including a failure of the remote commit after provider
processing succeeded — has its completion signal settled with the final
error, never with success.  On the code it is false: `action` resolves the
request's deferred before the commit runs (sync-engine.service.ts line 319),
so when the commit of a concrete `[Remote]` drain fails, the drain as a whole
fails with the wrapped error while the request's completion signal stays
resolved with success (the later reject is a no-op on the settled
deferred). -/
theorem processSyncQueue_commit_failure_signal_resolved :
    (processSyncQueue exEnvBadApi (exState [⟨1, SyncType.Remote, none⟩])).2
        = some (Err.syncFailed Err.jsError)
    ∧ findSettlement (processSyncQueue exEnvBadApi
        (exState [⟨1, SyncType.Remote, none⟩])).1.settlements 1
        = some Settlement.resolved := by
  decide

/-- **C3 amended**: the failure handler settles a still-pending completion
signal exactly once, and with the final reclassified error it resolves with —
except in the offline branch (a `NetworkOffline` error on a non-Local
request), where the signal receives the raw transport error while the handler
resolves with the `SyncUncommitted` wrapper; and a request whose remote
commit failed after its completion signal was already resolved with success
keeps that success resolution, the handler's reject being a no-op on the
settled deferred. -/
theorem handleFailedSync_settles_amended (env : Env) (st : EngineState) (s : Sync)
    (err : Err) :
    (findSettlement st.settlements s.uniqueId = none →
      err = Err.networkOffline ∧ s.type ≠ SyncType.Local →
      findSettlement (handleFailedSync env st s err).1.settlements s.uniqueId
        = some (Settlement.rejected err))
    ∧ (findSettlement st.settlements s.uniqueId = none →
      ¬(err = Err.networkOffline ∧ s.type ≠ SyncType.Local) →
      findSettlement (handleFailedSync env st s err).1.settlements s.uniqueId
        = some (Settlement.rejected (handleFailedSync env st s err).2))
    ∧ (findSettlement st.settlements s.uniqueId = some Settlement.resolved →
      findSettlement (handleFailedSync env st s err).1.settlements s.uniqueId
        = some Settlement.resolved) := by
  unfold handleFailedSync
  by_cases hoff : err = Err.networkOffline ∧ s.type ≠ SyncType.Local
  · rw [if_pos hoff]
    refine ⟨fun h _ => ?_, fun _ hc => absurd hoff hc, fun h => ?_⟩
    · exact findSettlement_settleReject_pending _ _ _ (by simpa using h)
    · exact findSettlement_settleReject_settled _ _ _ _ (by simpa using h)
  · rw [if_neg hoff]
    refine ⟨fun _ hc => absurd hc hoff, fun h _ => ?_, fun h => ?_⟩ <;>
      dsimp only <;>
      repeat' split
    all_goals
      first
      | exact findSettlement_settleReject_pending _ _ _
          (by simpa [disableSync_settlements] using h)
      | exact findSettlement_settleReject_settled _ _ _ _
          (by simpa [disableSync_settlements] using h)

/-- Witness for the amended C3 theorem: a pending Remote request failing with
a raw JavaScript error is rejected exactly once with the handler's final
(wrapped) error. -/
theorem handleFailedSync_settles_amended_witness :
    findSettlement (handleFailedSync exEnv (exState [])
        ⟨5, SyncType.Remote, none⟩ Err.jsError).1.settlements 5
      = some (Settlement.rejected
          (handleFailedSync exEnv (exState []) ⟨5, SyncType.Remote, none⟩ Err.jsError).2) :=
  (handleFailedSync_settles_amended exEnv (exState [])
      ⟨5, SyncType.Remote, none⟩ Err.jsError).2.1 (by decide) (by decide)

end SyncEngine
